import Mathlib

/-!
Verification development for the MediRoute emergency-dispatch core.

The definitions below are a shallow embedding of the TypeScript source:

* `useHospitalSpecialties` (specialty matcher and facility recommender):
  `SPECIALTY_KEYWORDS`, `analyzeSpecialties`, the per-facility scoring of
  `findBestHospitals`.
* `types/database.ts` (geo math): `calculateDistance` over the reals.
* `useEmergencyTokens.tsx` (the dispatch-token state machine):
  `startJourney`, `declineEmergency`, `assignHospitalWithRoutes`,
  `createHospitalEmergency`, `completeEmergency`, `cancelEmergency`.
* `hospitalCapacityEngine` (capacity simulator):
  `initializeHospitalCapacity`, `updateHospitalCapacity`.

Modelling conventions: JavaScript numbers used only structurally (route
distances, coordinates stored in records, capacity counters, the
`Math.random()` draws) are embedded as rationals `ℚ` or integers `ℤ` so the
development stays executable; the trigonometric haversine computation is
embedded over `ℝ`.  ISO timestamp strings are abstracted as `ℕ` instants
supplied by the caller (`now`).  The backing store is modelled as the list of
rows; an update call `.eq(id)` is the map that rewrites the matching rows.
-/

/-- Lower-case a string character by character, the model of
`String.prototype.toLowerCase` as used on plain ASCII hospital text. -/
def lowerStr (s : String) : String :=
  String.mk (s.toList.map Char.toLower)

/-- Contiguous-sublist test on character lists. -/
def listInfix (pat : List Char) : List Char → Bool
  | [] => pat.isEmpty
  | c :: cs => pat.isPrefixOf (c :: cs) || listInfix pat cs

/-- Substring test, the model of `String.prototype.includes`. -/
def includesStr (hay pat : String) : Bool :=
  listInfix pat.toList hay.toList

/-- The fixed specialty vocabulary `SPECIALTY_KEYWORDS` of
`useHospitalSpecialties`, verbatim from the source. -/
def SPECIALTY_KEYWORDS : List (String × List String) :=
  [ ("Cardiac", ["cardiology", "heart", "cardiac", "cath lab", "cardiovascular"]),
    ("Oncology", ["cancer", "oncology", "chemotherapy", "radiation", "tumor"]),
    ("Neuro", ["neurology", "stroke", "brain", "neurological", "neuro"]),
    ("Trauma", ["trauma", "emergency", "accident", "surgery", "icu"]),
    ("Maternity", ["maternity", "obstetrics", "gynecology", "neonatal", "delivery"]),
    ("Orthopedics", ["orthopedic", "bone", "joint", "fracture", "spine"]),
    ("Pediatric", ["pediatric", "children", "nicu", "child", "infant"]),
    ("Respiratory", ["pulmonary", "respiratory", "lung", "breathing", "ventilator"]) ]

/-- A hospital update record (`HospitalUpdate`).  The `update_data` payload is
an arbitrary JSON value in the source and is only ever consumed through
`JSON.stringify(update.update_data)`; the model carries that serialized string
directly. -/
structure HospitalUpdate where
  id : String
  hospital_id : String
  update_type : String
  update_data : String
  created_at : Nat
  deriving DecidableEq, Repr

/-- A candidate facility (`Hospital` of `useHospitals`).  The optional
`specialties` array is modelled as a plain list, `[]` standing for both an
empty and an absent array (the source reads it as `hospital.specialties || []`
and tests `length === 0`). -/
structure Hospital where
  id : String
  organization_name : String
  address : Option String
  location_lat : ℝ
  location_lng : ℝ
  specialties : List String

/-- The lower-cased name-plus-address text a hospital is matched on:
`` `${hospital.organization_name} ${hospital.address || ''}`.toLowerCase() ``. -/
def hospitalText (h : Hospital) : String :=
  lowerStr (h.organization_name ++ " " ++ h.address.getD "")

/-- Accumulated score of one vocabulary specialty for a hospital text and a
list of recent updates: 2 points per keyword occurring in the text, 3 points
per keyword occurring in the serialized payload of each update record
(`analyzeSpecialties`, scoring loops). -/
def specialtyScore (text : String) (recentUpdates : List HospitalUpdate)
    (keywords : List String) : Nat :=
  2 * keywords.countP (fun k => includesStr text k) +
    3 * (recentUpdates.map
      (fun u => keywords.countP (fun k => includesStr (lowerStr u.update_data) k))).sum

/-- Matched-keyword evidence strings for one specialty, in source push order:
first the keywords found in the hospital text, then per update record the
entries `` `${update.update_type}: ${keyword}` ``. -/
def matchedKeywords (text : String) (recentUpdates : List HospitalUpdate)
    (keywords : List String) : List String :=
  keywords.filter (fun k => includesStr text k) ++
    recentUpdates.flatMap (fun u =>
      (keywords.filter (fun k => includesStr (lowerStr u.update_data) k)).map
        (fun k => u.update_type ++ ": " ++ k))

/-- The specialty-inference function `analyzeSpecialties` of
`useHospitalSpecialties`: every vocabulary specialty whose accumulated score
reaches 2 is emitted, together with its evidence string. -/
def analyzeSpecialties (hospital : Hospital) (recentUpdates : List HospitalUpdate) :
    List String × List String :=
  let text := hospitalText hospital
  let hits := SPECIALTY_KEYWORDS.filter
    (fun p => 2 ≤ specialtyScore text recentUpdates p.2)
  (hits.map (fun p => p.1),
   hits.map (fun p =>
     p.1 ++ ": " ++ String.intercalate ", " (matchedKeywords text recentUpdates p.2)))

/-- Fallback specialty assignment of `findBestHospitals`: hospitals whose
stored specialty list is empty get a default list inferred from their name. -/
def defaultSpecialties (hospitalName : String) : List String :=
  let n := lowerStr hospitalName
  if includesStr n "pgimer" || includesStr n "aiims" then
    ["Cardiac", "Neuro", "Trauma", "Oncology", "Pediatric"]
  else if includesStr n "fortis" || includesStr n "max" || includesStr n "apollo" then
    ["Cardiac", "Trauma", "Orthopedics", "Maternity"]
  else if includesStr n "gmch" || includesStr n "sms" then
    ["Trauma", "Maternity", "Pediatric"]
  else
    ["Trauma", "Cardiac"]

/-- The specialty list `findBestHospitals` actually scores a hospital on:
the stored list when non-empty, otherwise the name-based default. -/
def resolveSpecialties (h : Hospital) : List String :=
  if h.specialties = [] then defaultSpecialties h.organization_name else h.specialties

/-- The distance-independent part of the `findBestHospitals` match score:
base 100 on an exact specialty match, otherwise 20 per keyword phrase of the
requested specialty found in the hospital text plus 10 for a generic Trauma
capability when the requested keyword is not itself Trauma. -/
def matchScoreBase (emergencyKeyword : String) (h : Hospital) : Nat :=
  let specialties := resolveSpecialties h
  if emergencyKeyword ∈ specialties then 100
  else
    let relatedKeywords := (SPECIALTY_KEYWORDS.lookup emergencyKeyword).getD []
    let text := hospitalText h
    20 * relatedKeywords.countP (fun k => includesStr text k) +
      (if "Trauma" ∈ specialties ∧ emergencyKeyword ≠ "Trauma" then 10 else 0)

/-- Degrees to radians (`toRadians`). -/
noncomputable def toRadians (degrees : ℝ) : ℝ :=
  degrees * (Real.pi / 180)

/-- Two-argument arctangent with JavaScript `Math.atan2(y, x)` semantics
(signed zeros aside, which `ℝ` does not distinguish). -/
noncomputable def atan2 (y x : ℝ) : ℝ :=
  if 0 < x then Real.arctan (y / x)
  else if x < 0 then
    (if 0 ≤ y then Real.arctan (y / x) + Real.pi else Real.arctan (y / x) - Real.pi)
  else
    (if 0 < y then Real.pi / 2 else if y < 0 then -(Real.pi / 2) else 0)

/-- The haversine intermediate `a` of `calculateDistance`. -/
noncomputable def haversineA (lat1 lng1 lat2 lng2 : ℝ) : ℝ :=
  let dLat := toRadians (lat2 - lat1)
  let dLng := toRadians (lng2 - lng1)
  Real.sin (dLat / 2) * Real.sin (dLat / 2) +
    Real.cos (toRadians lat1) * Real.cos (toRadians lat2) *
      (Real.sin (dLng / 2) * Real.sin (dLng / 2))

/-- Haversine great-circle distance in meters (`calculateDistance` of
`types/database.ts`, Earth radius 6 371 000 m). -/
noncomputable def calculateDistance (lat1 lng1 lat2 lng2 : ℝ) : ℝ :=
  let a := haversineA lat1 lng1 lat2 lng2
  let c := 2 * atan2 (Real.sqrt a) (Real.sqrt (1 - a))
  6371000 * c

/-- Combined score of one hospital in `findBestHospitals`: the
distance-independent base plus the distance bonus
`Math.max(0, 50 - distance / 1000)`. -/
noncomputable def matchScore (patientLat patientLng : ℝ) (emergencyKeyword : String)
    (h : Hospital) : ℝ :=
  (matchScoreBase emergencyKeyword h : ℝ) +
    max 0 (50 - calculateDistance patientLat patientLng h.location_lat h.location_lng / 1000)

/-- Token lifecycle status (`EmergencyToken['status']`). -/
inductive TokenStatus where
  | pending | assigned | route_selected | in_progress
  | at_patient | to_hospital | completed | cancelled | declined
  deriving DecidableEq, Repr

/-- Ambulance emergency status (`EmergencyStatus` of `types/database.ts`). -/
inductive EmergencyStatus where
  | inactive | active | responding
  deriving DecidableEq, Repr

/-- Route preference tag (`RouteData['type']`). -/
inductive RouteType where
  | shortest | fastest
  deriving DecidableEq, Repr

/-- The text stored for a route preference tag. -/
def RouteType.str : RouteType → String
  | .shortest => "shortest"
  | .fastest => "fastest"

/-- An opaque route descriptor returned by the routing collaborator
(`RouteData`): ordered waypoints, total distance in meters, total duration in
seconds and the preference tag. -/
structure RouteData where
  coordinates : List (ℚ × ℚ)
  distance : ℚ
  duration : ℚ
  rtype : RouteType
  deriving DecidableEq, Repr

/-- One emergency-token row (`EmergencyToken` of `useEmergencyTokens.tsx`),
with nullable columns as `Option` and timestamps as abstract `ℕ` instants. -/
structure EmergencyToken where
  id : String
  token_code : String
  ambulance_id : String
  ambulance_origin_lat : Option ℚ
  ambulance_origin_lng : Option ℚ
  pickup_lat : ℚ
  pickup_lng : ℚ
  pickup_address : Option String
  hospital_id : Option String
  hospital_name : Option String
  hospital_lat : Option ℚ
  hospital_lng : Option ℚ
  emergency_type : Option String
  medical_keyword : Option String
  route_to_patient : Option RouteData
  route_to_patient_distance_meters : Option ℚ
  route_to_patient_duration_seconds : Option ℚ
  arrived_at_patient_at : Option Nat
  route_to_hospital : Option RouteData
  route_to_hospital_distance_meters : Option ℚ
  route_to_hospital_duration_seconds : Option ℚ
  selected_route : Option RouteData
  route_type : Option String
  route_distance_meters : Option ℚ
  route_duration_seconds : Option ℚ
  status : TokenStatus
  decline_reason : Option String
  created_at : Nat
  assigned_at : Option Nat
  started_at : Option Nat
  completed_at : Option Nat
  deriving DecidableEq, Repr

/-- One ambulance row, restricted to the columns the token state machine reads
or writes (`Ambulance` of `types/database.ts`; location-telemetry, destination
and joined-driver columns are irrelevant to every operation modelled here). -/
structure Ambulance where
  id : String
  driver_id : String
  vehicle_number : String
  current_lat : ℚ
  current_lng : ℚ
  heading : ℚ
  speed : ℚ
  emergency_status : EmergencyStatus
  active_token_id : Option String
  deriving DecidableEq, Repr

/-- Hexadecimal-digit test, case-insensitive. -/
def isHexChar (c : Char) : Bool :=
  c.isDigit || (('a' ≤ c.toLower) && (c.toLower ≤ 'f'))

/-- Split a character list on a separator character, the model of
`String.prototype.split` with a one-character separator. -/
def splitOnChar (sep : Char) : List Char → List (List Char)
  | [] => [[]]
  | c :: cs =>
    let r := splitOnChar sep cs
    if c = sep then [] :: r
    else
      match r with
      | [] => [[c]]
      | g :: gs => (c :: g) :: gs

/-- The UUID shape test of `useEmergencyTokens.tsx`
(`/^[0-9a-f]{8}-[0-9a-f]{4}-[1-5][0-9a-f]{3}-[89ab][0-9a-f]{3}-[0-9a-f]{12}$/i`):
five hyphen-separated hex groups of lengths 8-4-4-4-12, version nibble `1`-`5`,
variant nibble in `89ab`, case-insensitive. -/
def isUuid (value : String) : Bool :=
  match splitOnChar '-' value.toList with
  | [a, b, c, d, e] =>
    (a.length == 8) && (b.length == 4) && (c.length == 4) && (d.length == 4) &&
    (e.length == 12) &&
    a.all isHexChar && b.all isHexChar && c.all isHexChar &&
    d.all isHexChar && e.all isHexChar &&
    (match c with
     | v :: _ => ('1' ≤ v) && (v ≤ '5')
     | [] => false) &&
    (match d with
     | v :: _ => v.toLower == '8' || v.toLower == '9' || v.toLower == 'a' || v.toLower == 'b'
     | [] => false)
  | _ => false

/-- A supabase `update(...).eq('id', tokenId)` call: rewrite every row whose
`id` matches. -/
def updateTokenRows (tokens : List EmergencyToken) (tokenId : String)
    (f : EmergencyToken → EmergencyToken) : List EmergencyToken :=
  tokens.map (fun t => if t.id = tokenId then f t else t)

/-- The `update({active_token_id: null, emergency_status: 'inactive'})` call
issued on the `ambulances` table by `completeEmergency`, `cancelEmergency` and
`releaseAmbulance`. -/
def clearAmbulanceRows (ambulances : List Ambulance) (ambulanceId : String) :
    List Ambulance :=
  ambulances.map (fun a =>
    if a.id = ambulanceId then { a with active_token_id := none, emergency_status := .inactive }
    else a)

/-- The `startJourney` operation on an accepting store: it issues a single
unconditional update setting `status` to `in_progress` and `started_at` to
now on the row with the given id — the source contains no read of the current
status and no read-back — and returns `true` whenever the store reports no
error (the `catch` branch returning `false` fires only on a thrown storage
failure, never on row content). -/
def startJourney (tokens : List EmergencyToken) (tokenId : String) (now : Nat) :
    List EmergencyToken × Bool :=
  (updateTokenRows tokens tokenId
    (fun t => { t with status := .in_progress, started_at := some now }), true)

/-- The `declineEmergency` operation: after the logged-in / hospital-role
guards it updates the row to `declined`, stores the reason verbatim, stamps
the decliner's user id into `hospital_id`, and detects a zero-row write via
`.select('*').single()` (modelled as: succeed exactly when a row with the id
exists). No validation of `reason` is performed. -/
def declineEmergency (tokens : List EmergencyToken) (userId : Option String)
    (isHospitalUser : Bool) (tokenId reason : String) :
    List EmergencyToken × Bool :=
  match userId with
  | none => (tokens, false)
  | some uid =>
    if isHospitalUser then
      if tokens.any (fun t => t.id == tokenId) then
        (updateTokenRows tokens tokenId
          (fun t => { t with status := .declined, decline_reason := some reason,
                             hospital_id := some uid }), true)
      else (tokens, false)
    else (tokens, false)

/-- The dashboard-side decline handler (`handleDecline` of
`HospitalDashboard.tsx`): it refuses to invoke `declineEmergency` when no
token is selected or the reason trims to the empty string; the returned flag
stands for the success toast. -/
def handleDecline (tokens : List EmergencyToken) (userId : Option String)
    (isHospitalUser : Bool) (declineTokenId : Option String) (declineReason : String) :
    List EmergencyToken × Bool :=
  match declineTokenId with
  | none => (tokens, false)
  | some tid =>
    if declineReason.trim = "" then (tokens, false)
    else declineEmergency tokens userId isHospitalUser tid declineReason

/-- The `assignHospitalWithRoutes` operation: requires a logged-in user,
resolves a non-UUID hospital id to the caller's user id, attaches facility
and both route legs, mirrors the legacy fields (`selected_route` and
`route_type` from the to-pickup leg, `route_distance_meters` and
`route_duration_seconds` as the sums over both legs), sets the status to
`route_selected` and `assigned_at` to now, and detects a zero-row write via
`.select('*').single()`. -/
def assignHospitalWithRoutes (tokens : List EmergencyToken) (userId : Option String)
    (tokenId hospitalId hospitalName : String) (hospitalLat hospitalLng : ℚ)
    (routeToPatient routeToHospital : RouteData) (now : Nat) :
    List EmergencyToken × Bool :=
  match userId with
  | none => (tokens, false)
  | some uid =>
    let resolvedHospitalId := if isUuid hospitalId then hospitalId else uid
    if tokens.any (fun t => t.id == tokenId) then
      (updateTokenRows tokens tokenId (fun t =>
        { t with
          hospital_id := some resolvedHospitalId,
          hospital_name := some hospitalName,
          hospital_lat := some hospitalLat,
          hospital_lng := some hospitalLng,
          route_to_patient := some routeToPatient,
          route_to_patient_distance_meters := some routeToPatient.distance,
          route_to_patient_duration_seconds := some routeToPatient.duration,
          route_to_hospital := some routeToHospital,
          route_to_hospital_distance_meters := some routeToHospital.distance,
          route_to_hospital_duration_seconds := some routeToHospital.duration,
          selected_route := some routeToPatient,
          route_type := some routeToPatient.rtype.str,
          route_distance_meters := some (routeToPatient.distance + routeToHospital.distance),
          route_duration_seconds := some (routeToPatient.duration + routeToHospital.duration),
          status := .route_selected,
          assigned_at := some now }), true)
    else (tokens, false)

/-- JavaScript truthiness on an optional string argument: `undefined` and the
empty string both read as absent (the source guards
`pickupAddress || null` and `if (emergencyType) ...`). -/
def presentStr (s : Option String) : Option String :=
  match s with
  | none => none
  | some v => if v = "" then none else some v

/-- The `createHospitalEmergency` operation: hospital-only; inserts a token
already carrying the facility, both route legs, the legacy mirror fields, the
status `route_selected` and `assigned_at` now, then links the ambulance to the
new token. `newId` and `tokenCode` stand for the store-generated row id and
display code; a non-UUID `hospitalId` argument is replaced by the caller's
user id. -/
def createHospitalEmergency (tokens : List EmergencyToken) (ambulances : List Ambulance)
    (userId : Option String) (isHospitalUser : Bool) (newId tokenCode : String)
    (ambulanceId : String) (ambulanceLat ambulanceLng pickupLat pickupLng : ℚ)
    (pickupAddress : Option String) (hospitalId hospitalName : String)
    (hospitalLat hospitalLng : ℚ) (routeToPatient routeToHospital : RouteData)
    (emergencyType medicalKeyword : Option String) (now : Nat) :
    List EmergencyToken × List Ambulance × Option EmergencyToken :=
  if isHospitalUser then
    let resolvedHospitalId := if isUuid hospitalId then some hospitalId else userId
    let tok : EmergencyToken :=
      { id := newId,
        token_code := tokenCode,
        ambulance_id := ambulanceId,
        ambulance_origin_lat := some ambulanceLat,
        ambulance_origin_lng := some ambulanceLng,
        pickup_lat := pickupLat,
        pickup_lng := pickupLng,
        pickup_address := presentStr pickupAddress,
        hospital_id := resolvedHospitalId,
        hospital_name := some hospitalName,
        hospital_lat := some hospitalLat,
        hospital_lng := some hospitalLng,
        emergency_type := presentStr emergencyType,
        medical_keyword := presentStr medicalKeyword,
        route_to_patient := some routeToPatient,
        route_to_patient_distance_meters := some routeToPatient.distance,
        route_to_patient_duration_seconds := some routeToPatient.duration,
        arrived_at_patient_at := none,
        route_to_hospital := some routeToHospital,
        route_to_hospital_distance_meters := some routeToHospital.distance,
        route_to_hospital_duration_seconds := some routeToHospital.duration,
        selected_route := some routeToPatient,
        route_type := some routeToPatient.rtype.str,
        route_distance_meters := some (routeToPatient.distance + routeToHospital.distance),
        route_duration_seconds := some (routeToPatient.duration + routeToHospital.duration),
        status := .route_selected,
        decline_reason := none,
        created_at := now,
        assigned_at := some now,
        started_at := none,
        completed_at := none }
    (tokens ++ [tok],
     ambulances.map (fun a =>
       if a.id = ambulanceId then
         { a with active_token_id := some newId, emergency_status := .active }
       else a),
     some tok)
  else (tokens, ambulances, none)

/-- The `completeEmergency` operation.  The source awaits the token-status
update and the ambulance update without inspecting either returned `error`
(supabase-js resolves rather than throws on a rejected or zero-row write), so
the `catch` branch is unreachable on store-level rejection: the flags say
whether the store actually applied each write, and the function clears the
ambulance and returns `true` regardless. -/
def completeEmergency (tokens : List EmergencyToken) (ambulances : List Ambulance)
    (tokenId ambulanceId : String) (now : Nat)
    (tokenWriteApplied ambulanceWriteApplied : Bool) :
    List EmergencyToken × List Ambulance × Bool :=
  let tokens2 :=
    if tokenWriteApplied then
      updateTokenRows tokens tokenId
        (fun t => { t with status := .completed, completed_at := some now })
    else tokens
  let ambulances2 :=
    if ambulanceWriteApplied then clearAmbulanceRows ambulances ambulanceId
    else ambulances
  (tokens2, ambulances2, true)

/-- The `cancelEmergency` operation; same error-blind write pattern as
`completeEmergency`, with status `cancelled` and no timestamp. -/
def cancelEmergency (tokens : List EmergencyToken) (ambulances : List Ambulance)
    (tokenId ambulanceId : String) (tokenWriteApplied ambulanceWriteApplied : Bool) :
    List EmergencyToken × List Ambulance × Bool :=
  let tokens2 :=
    if tokenWriteApplied then
      updateTokenRows tokens tokenId (fun t => { t with status := .cancelled })
    else tokens
  let ambulances2 :=
    if ambulanceWriteApplied then clearAmbulanceRows ambulances ambulanceId
    else ambulances
  (tokens2, ambulances2, true)

/-- Per-facility capacity counters (`HospitalCapacity` of the capacity
engine). -/
structure HospitalCapacity where
  total_beds : ℤ
  available_beds : ℤ
  icu_beds : ℤ
  icu_available : ℤ
  occupied_beds : ℤ
  incoming_ambulances : ℤ
  occupancy_percentage : ℤ
  deriving DecidableEq, Repr

/-- Coarse facility-type classifier (`getHospitalType`). -/
inductive HospitalType where
  | government | private_super | private_plain
  deriving DecidableEq, Repr

/-- Name-substring classification of a facility (`getHospitalType`; the
source's `'private'` branch is `private_plain` here because `private` is a
Lean keyword). -/
def getHospitalType (hospitalName : String) : HospitalType :=
  let n := lowerStr hospitalName
  if includesStr n "government" || includesStr n "civil" || includesStr n "district" then
    .government
  else if includesStr n "super" || includesStr n "max" || includesStr n "apollo" ||
      includesStr n "fortis" then
    .private_super
  else .private_plain

/-- First-reference initialization of a facility's counters
(`initializeHospitalCapacity`).  The six `Math.random()` draws are passed in
as rationals `r1`–`r6` (each in `[0,1)` at the call site): `r1`/`r2` size the
bed and ICU pools per facility type, `r3`/`r4` pick the initial bed and ICU
occupancy fractions, `r5` gates and `r6` sizes the incoming-ambulance count. -/
def initializeHospitalCapacity (hospitalName : String) (r1 r2 r3 r4 r5 r6 : ℚ) :
    HospitalCapacity :=
  let total_beds : ℤ :=
    match getHospitalType hospitalName with
    | .government => ⌊r1 * 100⌋ + 200
    | .private_super => ⌊r1 * 150⌋ + 150
    | .private_plain => ⌊r1 * 80⌋ + 50
  let icu_beds : ℤ :=
    match getHospitalType hospitalName with
    | .government => ⌊r2 * 20⌋ + 30
    | .private_super => ⌊r2 * 25⌋ + 25
    | .private_plain => ⌊r2 * 15⌋ + 10
  let occupied_beds : ℤ := ⌊(total_beds : ℚ) * (2/5 + r3 * (2/5))⌋
  let occupied_icu : ℤ := ⌊(icu_beds : ℚ) * (3/10 + r4 * (1/2))⌋
  { total_beds := total_beds,
    available_beds := total_beds - occupied_beds,
    icu_beds := icu_beds,
    icu_available := icu_beds - occupied_icu,
    occupied_beds := occupied_beds,
    incoming_ambulances := if r5 > 7/10 then ⌊r6 * 3⌋ + 1 else 0,
    occupancy_percentage := round ((occupied_beds : ℚ) / (total_beds : ℚ) * 100) }

/-- One simulation tick for one facility (`updateHospitalCapacity`).  The
three `Math.random()` draws are passed in as `r1`–`r3`: available beds move by
`⌊r1*7⌋ - 3`, ICU by `⌊r2*3⌋ - 1`, incoming ambulances by `⌊r3*3⌋ - 1`, each
clamped as in the source, and `occupied_beds` / `occupancy_percentage` are
recomputed from the new available-beds figure. -/
def updateHospitalCapacity (c : HospitalCapacity) (r1 r2 r3 : ℚ) : HospitalCapacity :=
  let bedChange : ℤ := ⌊r1 * 7⌋ - 3
  let newAvailableBeds := max 0 (min c.total_beds (c.available_beds + bedChange))
  let icuChange : ℤ := ⌊r2 * 3⌋ - 1
  let newIcuAvailable := max 0 (min c.icu_beds (c.icu_available + icuChange))
  let ambulanceChange : ℤ := ⌊r3 * 3⌋ - 1
  let newIncomingAmbulances := max 0 (c.incoming_ambulances + ambulanceChange)
  let occupied_beds := c.total_beds - newAvailableBeds
  { c with
    available_beds := newAvailableBeds,
    icu_available := newIcuAvailable,
    occupied_beds := occupied_beds,
    incoming_ambulances := newIncomingAmbulances,
    occupancy_percentage := round ((occupied_beds : ℚ) / (c.total_beds : ℚ) * 100) }

/-- Any number of simulation ticks, fed by the list of per-tick random
draws. -/
def runTicks (c : HospitalCapacity) : List (ℚ × ℚ × ℚ) → HospitalCapacity
  | [] => c
  | r :: rs => runTicks (updateHospitalCapacity c r.1 r.2.1 r.2.2) rs

/-- The bounds invariant of the capacity simulator, together with the
derived-occupancy equation. -/
def capacityInvariant (c : HospitalCapacity) : Prop :=
  0 ≤ c.available_beds ∧ c.available_beds ≤ c.total_beds ∧
    0 ≤ c.icu_available ∧ c.icu_available ≤ c.icu_beds ∧
    0 ≤ c.incoming_ambulances ∧
    c.occupied_beds = c.total_beds - c.available_beds

instance (c : HospitalCapacity) : Decidable (capacityInvariant c) := by
  unfold capacityInvariant; infer_instance

theorem arctan_nonneg_of_nonneg {x : ℝ} (hx : 0 ≤ x) : 0 ≤ Real.arctan x := by
  have h := Real.arctan_strictMono.monotone hx
  rwa [Real.arctan_zero] at h

theorem atan2_nonneg {y x : ℝ} (hy : 0 ≤ y) (hx : 0 ≤ x) : 0 ≤ atan2 y x := by
  unfold atan2
  rcases lt_or_eq_of_le hx with hx' | hx'
  · rw [if_pos hx']
    exact arctan_nonneg_of_nonneg (div_nonneg hy (le_of_lt hx'))
  · rw [if_neg (by rw [← hx']; exact lt_irrefl 0),
      if_neg (by rw [← hx']; exact lt_irrefl 0)]
    rcases lt_or_eq_of_le hy with hy' | hy'
    · rw [if_pos hy']
      positivity
    · rw [if_neg (by rw [← hy']; exact lt_irrefl 0), if_neg (by rw [← hy']; exact lt_irrefl 0)]

theorem haversineA_comm (lat1 lng1 lat2 lng2 : ℝ) :
    haversineA lat1 lng1 lat2 lng2 = haversineA lat2 lng2 lat1 lng1 := by
  unfold haversineA
  rw [show toRadians (lat1 - lat2) = -toRadians (lat2 - lat1) by unfold toRadians; ring,
    show toRadians (lng1 - lng2) = -toRadians (lng2 - lng1) by unfold toRadians; ring]
  simp only [neg_div, Real.sin_neg]
  ring

theorem haversineA_self (lat lng : ℝ) : haversineA lat lng lat lng = 0 := by
  unfold haversineA toRadians
  norm_num

theorem calculateDistance_comm (lat1 lng1 lat2 lng2 : ℝ) :
    calculateDistance lat1 lng1 lat2 lng2 = calculateDistance lat2 lng2 lat1 lng1 := by
  unfold calculateDistance
  rw [haversineA_comm]

theorem calculateDistance_self (lat lng : ℝ) : calculateDistance lat lng lat lng = 0 := by
  unfold calculateDistance
  rw [haversineA_self]
  norm_num [Real.sqrt_zero, Real.sqrt_one, atan2, Real.arctan_zero]

theorem calculateDistance_nonneg (lat1 lng1 lat2 lng2 : ℝ) :
    0 ≤ calculateDistance lat1 lng1 lat2 lng2 := by
  unfold calculateDistance
  have h := atan2_nonneg (Real.sqrt_nonneg (haversineA lat1 lng1 lat2 lng2))
    (Real.sqrt_nonneg (1 - haversineA lat1 lng1 lat2 lng2))
  positivity

/-- C9. Haversine distance is symmetric in its two endpoints, zero on the
diagonal, and never negative. -/
theorem calculateDistance_symm_zero_nonneg (lat1 lng1 lat2 lng2 : ℝ) :
    calculateDistance lat1 lng1 lat2 lng2 = calculateDistance lat2 lng2 lat1 lng1 ∧
    calculateDistance lat1 lng1 lat1 lng1 = 0 ∧
    0 ≤ calculateDistance lat1 lng1 lat2 lng2 :=
  ⟨calculateDistance_comm lat1 lng1 lat2 lng2, calculateDistance_self lat1 lng1,
    calculateDistance_nonneg lat1 lng1 lat2 lng2⟩

theorem specialty_keywords_functional :
    ∀ p ∈ SPECIALTY_KEYWORDS, ∀ q ∈ SPECIALTY_KEYWORDS, p.1 = q.1 → p = q := by
  intro p hp q hq
  fin_cases hp <;> fin_cases hq <;> intro hpq <;>
    first
      | rfl
      | exact absurd hpq (by decide)

/-- C7. A vocabulary specialty is in the result of `analyzeSpecialties`
exactly when its accumulated score (2 per keyword in the facility text, 3 per
keyword per update payload) is at least 2; the function is pure, and a
facility with empty name and address together with an empty update list gets
an empty specialty list. -/
theorem analyzeSpecialties_spec (h : Hospital) (us : List HospitalUpdate)
    (s : String) (ks : List String) (hmem : (s, ks) ∈ SPECIALTY_KEYWORDS) :
    (s ∈ (analyzeSpecialties h us).1 ↔ 2 ≤ specialtyScore (hospitalText h) us ks) ∧
    analyzeSpecialties h us = analyzeSpecialties h us ∧
    (∀ h2 : Hospital, h2.organization_name = "" → h2.address.getD "" = "" →
      (analyzeSpecialties h2 []).1 = []) := by
  refine ⟨?_, rfl, ?_⟩
  · constructor
    · intro hs
      rcases List.mem_map.mp hs with ⟨p, hpf, hps⟩
      rcases List.mem_filter.mp hpf with ⟨hpSK, hpred⟩
      have hpq : p = (s, ks) := specialty_keywords_functional p hpSK (s, ks) hmem hps
      subst hpq
      exact of_decide_eq_true hpred
    · intro hscore
      exact List.mem_map.mpr ⟨(s, ks),
        List.mem_filter.mpr ⟨hmem, decide_eq_true hscore⟩, rfl⟩
  · intro h2 hname haddr
    have htext : hospitalText h2 = " " := by
      unfold hospitalText
      rw [hname, haddr]
      decide
    show (analyzeSpecialties h2 []).1 = []
    unfold analyzeSpecialties
    rw [htext]
    decide

theorem analyzeSpecialties_spec_witness :
    (("Cardiac", ["cardiology", "heart", "cardiac", "cath lab", "cardiovascular"]) ∈
        SPECIALTY_KEYWORDS) ∧
    (("Cardiac" ∈ (analyzeSpecialties
        { id := "h1", organization_name := "City Heart Institute", address := none,
          location_lat := 0, location_lng := 0, specialties := [] } []).1 ↔
      2 ≤ specialtyScore (hospitalText
        { id := "h1", organization_name := "City Heart Institute", address := none,
          location_lat := 0, location_lng := 0, specialties := [] }) []
        ["cardiology", "heart", "cardiac", "cath lab", "cardiovascular"]) ∧
      (analyzeSpecialties
        { id := "h1", organization_name := "City Heart Institute", address := none,
          location_lat := 0, location_lng := 0, specialties := [] } [] =
       analyzeSpecialties
        { id := "h1", organization_name := "City Heart Institute", address := none,
          location_lat := 0, location_lng := 0, specialties := [] } []) ∧
      (∀ h2 : Hospital, h2.organization_name = "" → h2.address.getD "" = "" →
        (analyzeSpecialties h2 []).1 = [])) :=
  ⟨by decide, analyzeSpecialties_spec
    { id := "h1", organization_name := "City Heart Institute", address := none,
      location_lat := 0, location_lng := 0, specialties := [] } [] "Cardiac"
    ["cardiology", "heart", "cardiac", "cath lab", "cardiovascular"] (by decide)⟩

theorem matchScoreBase_of_not_mem (kw : String) (h : Hospital)
    (hnot : kw ∉ resolveSpecialties h) :
    matchScoreBase kw h =
      20 * ((SPECIALTY_KEYWORDS.lookup kw).getD []).countP
        (fun k => includesStr (hospitalText h) k) +
      (if "Trauma" ∈ resolveSpecialties h ∧ kw ≠ "Trauma" then 10 else 0) := by
  unfold matchScoreBase
  rw [if_neg hnot]

/-- C1 (amended). Holding distance exactly equal, an exact specialty match
(base 100) strictly outscores a non-matching facility whenever the
non-matching facility's text matches at most four of the requested
specialty's keyword phrases: its base is then at most 20·4 + 10 = 90. -/
theorem matchScore_dominance_up_to_four_keywords (patientLat patientLng : ℝ)
    (kw : String) (hA hB : Hospital)
    (hAmem : kw ∈ resolveSpecialties hA)
    (hBnot : kw ∉ resolveSpecialties hB)
    (hcount : ((SPECIALTY_KEYWORDS.lookup kw).getD []).countP
      (fun k => includesStr (hospitalText hB) k) ≤ 4)
    (hdist : calculateDistance patientLat patientLng hA.location_lat hA.location_lng =
      calculateDistance patientLat patientLng hB.location_lat hB.location_lng) :
    matchScore patientLat patientLng kw hB < matchScore patientLat patientLng kw hA := by
  have hA100 : matchScoreBase kw hA = 100 := by
    unfold matchScoreBase
    rw [if_pos hAmem]
  have hBle : matchScoreBase kw hB ≤ 90 := by
    rw [matchScoreBase_of_not_mem kw hB hBnot]
    split <;> omega
  have hcast : (matchScoreBase kw hB : ℝ) < (matchScoreBase kw hA : ℝ) := by
    rw [hA100]
    exact_mod_cast lt_of_le_of_lt hBle (by norm_num)
  unfold matchScore
  rw [hdist]
  linarith

/-- A facility whose stored specialty list contains the requested keyword
Cardiac, placed exactly at the pickup point used in the counterexample. -/
def cexHospitalExact : Hospital :=
  { id := "HA", organization_name := "General Hospital", address := none,
    location_lat := 30.7, location_lng := 76.75, specialties := ["Cardiac"] }

/-- A facility without the Cardiac specialty whose name matches all five
Cardiac keyword phrases and which has the generic Trauma capability, at the
same location as `cexHospitalExact`. -/
def cexHospitalKeyword : Hospital :=
  { id := "HB",
    organization_name := "Cardiology Heart Cardiac Cath Lab Cardiovascular Centre",
    address := none, location_lat := 30.7, location_lng := 76.75,
    specialties := ["Trauma"] }

/-- C1 is false as stated: at exactly equal distance, a facility whose text
matches all five Cardiac keyword phrases (5·20 = 100) and has the Trauma
bonus (10) reaches base 110 and strictly outscores the exact specialty match
(base 100). -/
theorem matchScore_dominance_counterexample :
    "Cardiac" ∈ resolveSpecialties cexHospitalExact ∧
    "Cardiac" ∉ resolveSpecialties cexHospitalKeyword ∧
    calculateDistance 30.7 76.75 cexHospitalExact.location_lat cexHospitalExact.location_lng =
      calculateDistance 30.7 76.75 cexHospitalKeyword.location_lat cexHospitalKeyword.location_lng ∧
    matchScore 30.7 76.75 "Cardiac" cexHospitalExact <
      matchScore 30.7 76.75 "Cardiac" cexHospitalKeyword := by
  refine ⟨by decide, by decide, rfl, ?_⟩
  have hbA : matchScoreBase "Cardiac" cexHospitalExact = 100 := by decide
  have hbB : matchScoreBase "Cardiac" cexHospitalKeyword = 110 := by decide
  unfold matchScore
  rw [hbA, hbB,
    show calculateDistance 30.7 76.75 cexHospitalExact.location_lat
        cexHospitalExact.location_lng =
      calculateDistance 30.7 76.75 cexHospitalKeyword.location_lat
        cexHospitalKeyword.location_lng from rfl]
  have hb := le_max_left (0 : ℝ)
    (50 - calculateDistance 30.7 76.75 cexHospitalKeyword.location_lat
      cexHospitalKeyword.location_lng / 1000)
  norm_num

theorem matchScore_dominance_witness :
    "Cardiac" ∈ resolveSpecialties cexHospitalExact ∧
    "Cardiac" ∉ resolveSpecialties
      { id := "HC", organization_name := "District Hospital", address := none,
        location_lat := 30.7, location_lng := 76.75, specialties := ["Trauma"] } ∧
    ((SPECIALTY_KEYWORDS.lookup "Cardiac").getD []).countP
      (fun k => includesStr (hospitalText
        { id := "HC", organization_name := "District Hospital", address := none,
          location_lat := 30.7, location_lng := 76.75,
          specialties := ["Trauma"] }) k) ≤ 4 ∧
    matchScore 30.7 76.75 "Cardiac"
      { id := "HC", organization_name := "District Hospital", address := none,
        location_lat := 30.7, location_lng := 76.75, specialties := ["Trauma"] } <
      matchScore 30.7 76.75 "Cardiac" cexHospitalExact :=
  ⟨by decide, by decide, by decide,
    matchScore_dominance_up_to_four_keywords 30.7 76.75 "Cardiac" cexHospitalExact
      { id := "HC", organization_name := "District Hospital", address := none,
        location_lat := 30.7, location_lng := 76.75, specialties := ["Trauma"] }
      (by decide) (by decide) (by decide) rfl⟩

theorem mem_updateTokenRows_of_id_eq {tokens : List EmergencyToken}
    {t : EmergencyToken} {tokenId : String} (f : EmergencyToken → EmergencyToken)
    (hmem : t ∈ tokens) (hid : t.id = tokenId) :
    f t ∈ updateTokenRows tokens tokenId f := by
  unfold updateTokenRows
  have h := List.mem_map_of_mem (fun u => if u.id = tokenId then f u else u) hmem
  simpa [hid] using h

theorem mem_updateTokenRows_of_id_ne {tokens : List EmergencyToken}
    {t : EmergencyToken} {tokenId : String} (f : EmergencyToken → EmergencyToken)
    (hmem : t ∈ tokens) (hid : t.id ≠ tokenId) :
    t ∈ updateTokenRows tokens tokenId f := by
  unfold updateTokenRows
  have h := List.mem_map_of_mem (fun u => if u.id = tokenId then f u else u) hmem
  simpa [hid] using h

theorem updateTokenRows_mem_cases {tokens : List EmergencyToken}
    {tokenId : String} {f : EmergencyToken → EmergencyToken} {t2 : EmergencyToken}
    (h : t2 ∈ updateTokenRows tokens tokenId f) :
    ∃ u ∈ tokens, t2 = if u.id = tokenId then f u else u := by
  unfold updateTokenRows at h
  rcases List.mem_map.mp h with ⟨u, hu, he⟩
  exact ⟨u, hu, he.symm⟩

theorem any_id_beq_true {tokens : List EmergencyToken} {t : EmergencyToken}
    {tokenId : String} (hmem : t ∈ tokens) (hid : t.id = tokenId) :
    tokens.any (fun u => u.id == tokenId) = true :=
  List.any_eq_true.mpr ⟨t, hmem, by simp [hid]⟩

/-- C2 (amended). The `startJourney` operation applies no status guard: on an
accepting store it sets `status` to `in_progress` and `started_at` on the
matching token regardless of the token's prior status (in particular from
`pending`) and reports success, leaving only the non-matching rows untouched;
the `route_selected` restriction exists solely in the dashboard UI, which
renders the start button only in that status. -/
theorem startJourney_unguarded (tokens : List EmergencyToken) (tokenId : String)
    (now : Nat) (t : EmergencyToken) (hmem : t ∈ tokens) (hid : t.id = tokenId) :
    (startJourney tokens tokenId now).2 = true ∧
    { t with status := TokenStatus.in_progress, started_at := some now } ∈
      (startJourney tokens tokenId now).1 ∧
    (∀ u ∈ tokens, u.id ≠ tokenId → u ∈ (startJourney tokens tokenId now).1) := by
  refine ⟨rfl, ?_, ?_⟩
  · exact mem_updateTokenRows_of_id_eq _ hmem hid
  · intro u hu hne
    exact mem_updateTokenRows_of_id_ne _ hu hne

/-- A pending, never-assigned token used as concrete input in several
counterexamples and witnesses. -/
def cexPendingToken : EmergencyToken :=
  { id := "T1", token_code := "EMG-001", ambulance_id := "A1",
    ambulance_origin_lat := some 30, ambulance_origin_lng := some 76,
    pickup_lat := 31, pickup_lng := 77, pickup_address := none,
    hospital_id := none, hospital_name := none, hospital_lat := none,
    hospital_lng := none, emergency_type := some "Heart Attack",
    medical_keyword := some "Cardiac", route_to_patient := none,
    route_to_patient_distance_meters := none,
    route_to_patient_duration_seconds := none, arrived_at_patient_at := none,
    route_to_hospital := none, route_to_hospital_distance_meters := none,
    route_to_hospital_duration_seconds := none, selected_route := none,
    route_type := none, route_distance_meters := none,
    route_duration_seconds := none, status := .pending, decline_reason := none,
    created_at := 0, assigned_at := none, started_at := none,
    completed_at := none }

theorem startJourney_unguarded_witness :
    (cexPendingToken ∈ [cexPendingToken] ∧ cexPendingToken.id = "T1") ∧
    ((startJourney [cexPendingToken] "T1" 5).2 = true ∧
      { cexPendingToken with
          status := TokenStatus.in_progress,
          started_at := some 5 } ∈ (startJourney [cexPendingToken] "T1" 5).1 ∧
      (∀ u ∈ [cexPendingToken], u.id ≠ "T1" →
        u ∈ (startJourney [cexPendingToken] "T1" 5).1)) :=
  ⟨⟨List.mem_singleton.mpr rfl, rfl⟩,
    startJourney_unguarded [cexPendingToken] "T1" 5 cexPendingToken
      (List.mem_singleton.mpr rfl) rfl⟩

/-- C2 is false as stated: invoked on a token whose status is `pending`, the
modelled `startJourney` reports success and moves the token to `in_progress`
instead of failing and leaving it unchanged. -/
theorem startJourney_counterexample :
    cexPendingToken.status = TokenStatus.pending ∧
    (startJourney [cexPendingToken] "T1" 5).2 = true ∧
    (startJourney [cexPendingToken] "T1" 5).1 =
      [{ cexPendingToken with
          status := TokenStatus.in_progress,
          started_at := some 5 }] := by
  refine ⟨rfl, rfl, ?_⟩
  decide

/-- C3 (amended). The hook-level `declineEmergency` performs no validation of
the reason: for a logged-in hospital user and an existing token it succeeds
with any reason — the empty string included — storing the reason verbatim and
marking the token declined; the empty-reason rejection lives solely in the
dashboard caller `handleDecline`, which refuses to invoke the hook (and
leaves the store untouched) when the reason trims to the empty string. -/
theorem declineEmergency_no_reason_validation (tokens : List EmergencyToken)
    (uid tokenId reason : String) (t : EmergencyToken)
    (hmem : t ∈ tokens) (hid : t.id = tokenId) :
    ((declineEmergency tokens (some uid) true tokenId reason).2 = true ∧
      { t with
        status := TokenStatus.declined,
        decline_reason := some reason,
        hospital_id := some uid } ∈
        (declineEmergency tokens (some uid) true tokenId reason).1) ∧
    (∀ r : String, r.trim = "" →
      handleDecline tokens (some uid) true (some tokenId) r = (tokens, false)) := by
  have hany := any_id_beq_true hmem hid
  constructor
  · unfold declineEmergency
    simp only [if_true, hany, if_pos]
    exact ⟨trivial, mem_updateTokenRows_of_id_eq _ hmem hid⟩
  · intro r hr
    unfold handleDecline
    simp only [hr, if_pos]

theorem declineEmergency_no_reason_validation_witness :
    (cexPendingToken ∈ [cexPendingToken] ∧ cexPendingToken.id = "T1") ∧
    (((declineEmergency [cexPendingToken] (some "H1-user") true "T1" "no beds").2 = true ∧
      { cexPendingToken with
        status := TokenStatus.declined,
        decline_reason := some "no beds",
        hospital_id := some "H1-user" } ∈
        (declineEmergency [cexPendingToken] (some "H1-user") true "T1" "no beds").1) ∧
    (∀ r : String, r.trim = "" →
      handleDecline [cexPendingToken] (some "H1-user") true (some "T1") r =
        ([cexPendingToken], false))) :=
  ⟨⟨List.mem_singleton.mpr rfl, rfl⟩,
    declineEmergency_no_reason_validation [cexPendingToken] "H1-user" "T1" "no beds"
      cexPendingToken (List.mem_singleton.mpr rfl) rfl⟩

/-- C3 is false as stated: the modelled `declineEmergency` called with the
empty reason on a pending token reports success, marks the token declined and
stores the empty string as `decline_reason`, instead of failing and leaving
the token unchanged. -/
theorem declineEmergency_empty_reason_counterexample :
    cexPendingToken.status = TokenStatus.pending ∧
    cexPendingToken.decline_reason = none ∧
    (declineEmergency [cexPendingToken] (some "H1-user") true "T1" "").2 = true ∧
    (declineEmergency [cexPendingToken] (some "H1-user") true "T1" "").1 =
      [{ cexPendingToken with
          status := TokenStatus.declined,
          decline_reason := some "",
          hospital_id := some "H1-user" }] := by
  refine ⟨rfl, rfl, ?_, ?_⟩ <;> decide

/-- C10. A successful decline of a never-assigned pending token stamps the
declining user's id into `hospital_id` — the declined token carries a
non-null `hospital_id` although no facility was ever assigned — while
`hospital_name`, `hospital_lat` and `hospital_lng` stay null. -/
theorem declineEmergency_stamps_decliner_id (tokens : List EmergencyToken)
    (uid tokenId reason : String) (t : EmergencyToken)
    (hmem : t ∈ tokens) (hid : t.id = tokenId)
    (hstatus : t.status = TokenStatus.pending)
    (hhid : t.hospital_id = none) (hname : t.hospital_name = none)
    (hlat : t.hospital_lat = none) (hlng : t.hospital_lng = none) :
    (declineEmergency tokens (some uid) true tokenId reason).2 = true ∧
    ∃ t2 ∈ (declineEmergency tokens (some uid) true tokenId reason).1,
      t2.id = tokenId ∧ t2.status = TokenStatus.declined ∧
      t2.hospital_id = some uid ∧ t2.hospital_name = none ∧
      t2.hospital_lat = none ∧ t2.hospital_lng = none := by
  have hany := any_id_beq_true hmem hid
  unfold declineEmergency
  simp only [if_true, hany, if_pos]
  refine ⟨trivial, { t with
      status := TokenStatus.declined,
      decline_reason := some reason,
      hospital_id := some uid },
    mem_updateTokenRows_of_id_eq _ hmem hid, hid, rfl, rfl, hname, hlat, hlng⟩

theorem declineEmergency_stamps_decliner_id_witness :
    (cexPendingToken ∈ [cexPendingToken] ∧ cexPendingToken.id = "T1" ∧
      cexPendingToken.status = TokenStatus.pending ∧
      cexPendingToken.hospital_id = none ∧ cexPendingToken.hospital_name = none ∧
      cexPendingToken.hospital_lat = none ∧ cexPendingToken.hospital_lng = none) ∧
    ((declineEmergency [cexPendingToken] (some "H2-user") true "T1" "full").2 = true ∧
      ∃ t2 ∈ (declineEmergency [cexPendingToken] (some "H2-user") true "T1" "full").1,
        t2.id = "T1" ∧ t2.status = TokenStatus.declined ∧
        t2.hospital_id = some "H2-user" ∧ t2.hospital_name = none ∧
        t2.hospital_lat = none ∧ t2.hospital_lng = none) :=
  ⟨⟨List.mem_singleton.mpr rfl, rfl, rfl, rfl, rfl, rfl, rfl⟩,
    declineEmergency_stamps_decliner_id [cexPendingToken] "H2-user" "T1" "full"
      cexPendingToken (List.mem_singleton.mpr rfl) rfl rfl rfl rfl rfl rfl⟩

theorem mem_clearAmbulanceRows_of_id_eq {ambulances : List Ambulance}
    {a : Ambulance} {ambulanceId : String} (hmem : a ∈ ambulances)
    (hid : a.id = ambulanceId) :
    { a with active_token_id := none, emergency_status := EmergencyStatus.inactive } ∈
      clearAmbulanceRows ambulances ambulanceId := by
  unfold clearAmbulanceRows
  have h := List.mem_map_of_mem (fun u =>
    if u.id = ambulanceId then
      { u with active_token_id := none, emergency_status := EmergencyStatus.inactive }
    else u) hmem
  simpa [hid] using h

/-- C4 (amended). `completeEmergency` and `cancelEmergency` never inspect the
result of the token-status write: when the store rejects it (or applies it to
zero rows) the token table is untouched, yet both operations still clear the
paired ambulance's `active_token_id` and `emergency_status` and still report
success — rejection of the token write does not suppress the vehicle-side
mutation or the success result. -/
theorem completeCancel_ignore_rejected_token_write (tokens : List EmergencyToken)
    (ambulances : List Ambulance) (tokenId ambulanceId : String) (now : Nat)
    (a : Ambulance) (hmem : a ∈ ambulances) (hid : a.id = ambulanceId) :
    ((completeEmergency tokens ambulances tokenId ambulanceId now false true).2.2 = true ∧
      (completeEmergency tokens ambulances tokenId ambulanceId now false true).1 = tokens ∧
      { a with active_token_id := none, emergency_status := EmergencyStatus.inactive } ∈
        (completeEmergency tokens ambulances tokenId ambulanceId now false true).2.1) ∧
    ((cancelEmergency tokens ambulances tokenId ambulanceId false true).2.2 = true ∧
      (cancelEmergency tokens ambulances tokenId ambulanceId false true).1 = tokens ∧
      { a with active_token_id := none, emergency_status := EmergencyStatus.inactive } ∈
        (cancelEmergency tokens ambulances tokenId ambulanceId false true).2.1) :=
  ⟨⟨rfl, rfl, mem_clearAmbulanceRows_of_id_eq hmem hid⟩,
    ⟨rfl, rfl, mem_clearAmbulanceRows_of_id_eq hmem hid⟩⟩

/-- An ambulance on an active emergency, linked to token `T1`. -/
def cexActiveAmbulance : Ambulance :=
  { id := "A1", driver_id := "D1", vehicle_number := "CH-01-1234",
    current_lat := 31, current_lng := 77, heading := 90, speed := 40,
    emergency_status := .active, active_token_id := some "T1" }

theorem completeCancel_ignore_rejected_token_write_witness :
    (cexActiveAmbulance ∈ [cexActiveAmbulance] ∧ cexActiveAmbulance.id = "A1") ∧
    (((completeEmergency [cexPendingToken] [cexActiveAmbulance] "T1" "A1" 9 false true).2.2 =
        true ∧
      (completeEmergency [cexPendingToken] [cexActiveAmbulance] "T1" "A1" 9 false true).1 =
        [cexPendingToken] ∧
      { cexActiveAmbulance with
          active_token_id := none,
          emergency_status := EmergencyStatus.inactive } ∈
        (completeEmergency [cexPendingToken] [cexActiveAmbulance] "T1" "A1" 9 false true).2.1) ∧
    ((cancelEmergency [cexPendingToken] [cexActiveAmbulance] "T1" "A1" false true).2.2 = true ∧
      (cancelEmergency [cexPendingToken] [cexActiveAmbulance] "T1" "A1" false true).1 =
        [cexPendingToken] ∧
      { cexActiveAmbulance with
          active_token_id := none,
          emergency_status := EmergencyStatus.inactive } ∈
        (cancelEmergency [cexPendingToken] [cexActiveAmbulance] "T1" "A1" false true).2.1)) :=
  ⟨⟨List.mem_singleton.mpr rfl, rfl⟩,
    completeCancel_ignore_rejected_token_write [cexPendingToken] [cexActiveAmbulance]
      "T1" "A1" 9 cexActiveAmbulance (List.mem_singleton.mpr rfl) rfl⟩

/-- C4 is false as stated: with the token-status write rejected by the store
(zero rows applied), `completeEmergency` still reports success and still
performs the vehicle-side mutation, changing the ambulance's
`active_token_id` from `some "T1"` to `none` and its emergency status to
inactive. -/
theorem completeEmergency_rejected_write_counterexample :
    cexActiveAmbulance.active_token_id = some "T1" ∧
    cexActiveAmbulance.emergency_status = EmergencyStatus.active ∧
    (completeEmergency [cexPendingToken] [cexActiveAmbulance] "T1" "A1" 9 false true).2.2 =
      true ∧
    (completeEmergency [cexPendingToken] [cexActiveAmbulance] "T1" "A1" 9 false true).2.1 =
      [{ cexActiveAmbulance with
          active_token_id := none,
          emergency_status := EmergencyStatus.inactive }] := by
  refine ⟨rfl, rfl, rfl, ?_⟩
  decide

/-- C5 (amended). After a successful `assignHospitalWithRoutes` and on every
token produced by `createHospitalEmergency`, the legacy mirror carries the
to-pickup leg itself in `selected_route` and its preference tag in
`route_type`, but `route_distance_meters` and `route_duration_seconds` hold
the sums over both legs (to-pickup plus to-facility), not the to-pickup
leg's own distance and duration. -/
theorem legacy_mirror_fields (tokens : List EmergencyToken) (userId : Option String)
    (tokenId hospitalId hospitalName : String) (hospitalLat hospitalLng : ℚ)
    (routeToPatient routeToHospital : RouteData) (now : Nat)
    (hok : (assignHospitalWithRoutes tokens userId tokenId hospitalId hospitalName
      hospitalLat hospitalLng routeToPatient routeToHospital now).2 = true) :
    (∀ t2 ∈ (assignHospitalWithRoutes tokens userId tokenId hospitalId hospitalName
        hospitalLat hospitalLng routeToPatient routeToHospital now).1,
      t2.id = tokenId →
        t2.selected_route = some routeToPatient ∧
        t2.route_type = some routeToPatient.rtype.str ∧
        t2.route_distance_meters =
          some (routeToPatient.distance + routeToHospital.distance) ∧
        t2.route_duration_seconds =
          some (routeToPatient.duration + routeToHospital.duration)) ∧
    (∀ (ambulances : List Ambulance) (newId tokenCode ambulanceId : String)
        (ambulanceLat ambulanceLng pickupLat pickupLng : ℚ)
        (pickupAddress : Option String) (emergencyType medicalKeyword : Option String)
        (now2 : Nat) (tok : EmergencyToken),
      (createHospitalEmergency tokens ambulances userId true newId tokenCode
          ambulanceId ambulanceLat ambulanceLng pickupLat pickupLng pickupAddress
          hospitalId hospitalName hospitalLat hospitalLng routeToPatient
          routeToHospital emergencyType medicalKeyword now2).2.2 = some tok →
        tok.selected_route = some routeToPatient ∧
        tok.route_type = some routeToPatient.rtype.str ∧
        tok.route_distance_meters =
          some (routeToPatient.distance + routeToHospital.distance) ∧
        tok.route_duration_seconds =
          some (routeToPatient.duration + routeToHospital.duration)) := by
  constructor
  · intro t2 ht2 hid2
    match hu : userId with
    | none =>
      exact absurd hok (by simp [assignHospitalWithRoutes])
    | some uid =>
      by_cases hany : tokens.any (fun t => t.id == tokenId) = true
      · unfold assignHospitalWithRoutes at ht2
        simp only [hany, if_pos] at ht2
        rcases updateTokenRows_mem_cases ht2 with ⟨u, hu2, he⟩
        by_cases huid : u.id = tokenId
        · rw [if_pos huid] at he
          subst he
          exact ⟨rfl, rfl, rfl, rfl⟩
        · rw [if_neg huid] at he
          subst he
          exact absurd hid2 huid
      · unfold assignHospitalWithRoutes at hok
        simp only [hany] at hok
        simp at hok
  · intro ambulances newId tokenCode ambulanceId ambulanceLat ambulanceLng
      pickupLat pickupLng pickupAddress emergencyType medicalKeyword now2 tok hres
    unfold createHospitalEmergency at hres
    simp only [if_pos] at hres
    have htok := Option.some.inj hres
    subst htok
    exact ⟨rfl, rfl, rfl, rfl⟩

/-- The to-pickup route leg used in concrete state-machine inputs. -/
def cexRouteToPatient : RouteData :=
  { coordinates := [(31, 77), (32, 78)], distance := 3000, duration := 300,
    rtype := .fastest }

/-- The to-facility route leg used in concrete state-machine inputs. -/
def cexRouteToHospital : RouteData :=
  { coordinates := [(32, 78), (33, 79)], distance := 5000, duration := 400,
    rtype := .fastest }

theorem legacy_mirror_fields_witness :
    ((assignHospitalWithRoutes [cexPendingToken] (some "H1-user") "T1" "HOSP-1"
        "City Hospital" 32 78 cexRouteToPatient cexRouteToHospital 7).2 = true) ∧
    (∀ t2 ∈ (assignHospitalWithRoutes [cexPendingToken] (some "H1-user") "T1" "HOSP-1"
        "City Hospital" 32 78 cexRouteToPatient cexRouteToHospital 7).1,
      t2.id = "T1" →
        t2.selected_route = some cexRouteToPatient ∧
        t2.route_type = some cexRouteToPatient.rtype.str ∧
        t2.route_distance_meters =
          some (cexRouteToPatient.distance + cexRouteToHospital.distance) ∧
        t2.route_duration_seconds =
          some (cexRouteToPatient.duration + cexRouteToHospital.duration)) :=
  ⟨by decide,
    (legacy_mirror_fields [cexPendingToken] (some "H1-user") "T1" "HOSP-1"
      "City Hospital" 32 78 cexRouteToPatient cexRouteToHospital 7 (by decide)).1⟩

/-- C5 is false as stated: after `assignHospitalWithRoutes` with a to-pickup
leg of 3000 m / 300 s and a to-facility leg of 5000 m / 400 s, the legacy
`route_distance_meters` is 8000 (the sum over both legs) rather than the
to-pickup leg's 3000, and `route_duration_seconds` is 700 rather than 300. -/
theorem legacy_mirror_counterexample :
    cexRouteToPatient.distance = 3000 ∧ cexRouteToPatient.duration = 300 ∧
    (assignHospitalWithRoutes [cexPendingToken] (some "H1-user") "T1" "HOSP-1"
        "City Hospital" 32 78 cexRouteToPatient cexRouteToHospital 7).2 = true ∧
    (assignHospitalWithRoutes [cexPendingToken] (some "H1-user") "T1" "HOSP-1"
        "City Hospital" 32 78 cexRouteToPatient cexRouteToHospital 7).1 =
      [{ cexPendingToken with
          hospital_id := some "H1-user",
          hospital_name := some "City Hospital",
          hospital_lat := some 32,
          hospital_lng := some 78,
          route_to_patient := some cexRouteToPatient,
          route_to_patient_distance_meters := some 3000,
          route_to_patient_duration_seconds := some 300,
          route_to_hospital := some cexRouteToHospital,
          route_to_hospital_distance_meters := some 5000,
          route_to_hospital_duration_seconds := some 400,
          selected_route := some cexRouteToPatient,
          route_type := some "fastest",
          route_distance_meters := some 8000,
          route_duration_seconds := some 700,
          status := TokenStatus.route_selected,
          assigned_at := some 7 }] ∧
    ((8000 : ℚ) ≠ 3000 ∧ (700 : ℚ) ≠ 300) := by
  refine ⟨rfl, rfl, by decide, ?_, by norm_num⟩
  have huuid : isUuid "HOSP-1" = false := by decide
  have hany : [cexPendingToken].any (fun t => t.id == "T1") = true := by decide
  simp only [assignHospitalWithRoutes, huuid, hany, Bool.false_eq_true, if_false,
    if_true, updateTokenRows, List.map]
  rw [if_pos (show cexPendingToken.id = "T1" from rfl)]
  norm_num [cexPendingToken, cexRouteToPatient, cexRouteToHospital, RouteType.str]

/-- C6. Every token produced by a successful facility-initiated creation is
already in `route_selected` — it never carries `pending` — with both route
legs populated, the facility identity and coordinates set, and `assigned_at`
stamped with the creation instant. -/
theorem createHospitalEmergency_starts_route_selected (tokens : List EmergencyToken)
    (ambulances : List Ambulance) (uid newId tokenCode ambulanceId : String)
    (ambulanceLat ambulanceLng pickupLat pickupLng : ℚ)
    (pickupAddress : Option String) (hospitalId hospitalName : String)
    (hospitalLat hospitalLng : ℚ) (routeToPatient routeToHospital : RouteData)
    (emergencyType medicalKeyword : Option String) (now : Nat) (tok : EmergencyToken)
    (hres : (createHospitalEmergency tokens ambulances (some uid) true newId tokenCode
        ambulanceId ambulanceLat ambulanceLng pickupLat pickupLng pickupAddress
        hospitalId hospitalName hospitalLat hospitalLng routeToPatient routeToHospital
        emergencyType medicalKeyword now).2.2 = some tok) :
    tok.status = TokenStatus.route_selected ∧
    tok.status ≠ TokenStatus.pending ∧
    tok.route_to_patient = some routeToPatient ∧
    tok.route_to_hospital = some routeToHospital ∧
    tok.hospital_id.isSome = true ∧
    tok.hospital_name = some hospitalName ∧
    tok.hospital_lat = some hospitalLat ∧
    tok.hospital_lng = some hospitalLng ∧
    tok.assigned_at = some now := by
  unfold createHospitalEmergency at hres
  simp only [if_pos] at hres
  have htok := Option.some.inj hres
  subst htok
  refine ⟨rfl, by simp, rfl, rfl, ?_, rfl, rfl, rfl, rfl⟩
  by_cases hu : isUuid hospitalId <;> simp [hu]

/-- The token a facility-initiated creation with the concrete witness
arguments produces. -/
def cexCreatedToken : EmergencyToken :=
  { id := "T9", token_code := "EMG-009", ambulance_id := "A1",
    ambulance_origin_lat := some 30, ambulance_origin_lng := some 76,
    pickup_lat := 31, pickup_lng := 77, pickup_address := none,
    hospital_id := some "H1-user", hospital_name := some "City Hospital",
    hospital_lat := some 32, hospital_lng := some 78,
    emergency_type := some "Heart Attack", medical_keyword := some "Cardiac",
    route_to_patient := some cexRouteToPatient,
    route_to_patient_distance_meters := some cexRouteToPatient.distance,
    route_to_patient_duration_seconds := some cexRouteToPatient.duration,
    arrived_at_patient_at := none,
    route_to_hospital := some cexRouteToHospital,
    route_to_hospital_distance_meters := some cexRouteToHospital.distance,
    route_to_hospital_duration_seconds := some cexRouteToHospital.duration,
    selected_route := some cexRouteToPatient,
    route_type := some cexRouteToPatient.rtype.str,
    route_distance_meters := some (cexRouteToPatient.distance + cexRouteToHospital.distance),
    route_duration_seconds := some (cexRouteToPatient.duration + cexRouteToHospital.duration),
    status := .route_selected, decline_reason := none, created_at := 11,
    assigned_at := some 11, started_at := none, completed_at := none }

theorem createHospitalEmergency_starts_route_selected_witness :
    ((createHospitalEmergency [] [] (some "H1-user") true "T9" "EMG-009" "A1" 30 76 31 77
        none "HOSP-1" "City Hospital" 32 78 cexRouteToPatient cexRouteToHospital
        (some "Heart Attack") (some "Cardiac") 11).2.2 = some cexCreatedToken) ∧
    (cexCreatedToken.status = TokenStatus.route_selected ∧
      cexCreatedToken.status ≠ TokenStatus.pending ∧
      cexCreatedToken.route_to_patient = some cexRouteToPatient ∧
      cexCreatedToken.route_to_hospital = some cexRouteToHospital ∧
      cexCreatedToken.hospital_id.isSome = true ∧
      cexCreatedToken.hospital_name = some "City Hospital" ∧
      cexCreatedToken.hospital_lat = some 32 ∧
      cexCreatedToken.hospital_lng = some 78 ∧
      cexCreatedToken.assigned_at = some 11) :=
  ⟨rfl,
    createHospitalEmergency_starts_route_selected [] [] "H1-user" "T9" "EMG-009" "A1"
      30 76 31 77 none "HOSP-1" "City Hospital" 32 78 cexRouteToPatient
      cexRouteToHospital (some "Heart Attack") (some "Cardiac") 11 cexCreatedToken rfl⟩

theorem frac_bound (lo step r : ℚ) (hr0 : 0 ≤ r) (hr1 : r < 1) (hlo : 0 ≤ lo)
    (hstep : 0 < step) (hsum : lo + step ≤ 1) :
    0 ≤ lo + r * step ∧ lo + r * step < 1 :=
  ⟨by nlinarith, by nlinarith⟩

theorem floor_frac_bounds (T : ℤ) (hT : 0 < T) (f : ℚ) (hf0 : 0 ≤ f) (hf1 : f < 1) :
    0 ≤ ⌊(T : ℚ) * f⌋ ∧ ⌊(T : ℚ) * f⌋ ≤ T := by
  constructor
  · exact Int.floor_nonneg.mpr (mul_nonneg (by exact_mod_cast hT.le) hf0)
  · have hlt : (T : ℚ) * f < (T : ℚ) := by
      have h := mul_lt_mul_of_pos_left hf1 (show (0 : ℚ) < (T : ℚ) by exact_mod_cast hT)
      simpa using h
    have h2 : (⌊(T : ℚ) * f⌋ : ℚ) ≤ (T : ℚ) * f := Int.floor_le _
    have h3 : (⌊(T : ℚ) * f⌋ : ℚ) < (T : ℚ) := lt_of_le_of_lt h2 hlt
    exact_mod_cast h3.le

theorem init_record_invariant (T I : ℤ) (hT : 0 < T) (hI : 0 < I) (r3 r4 r5 r6 : ℚ)
    (h3 : 0 ≤ r3) (h3b : r3 < 1) (h4 : 0 ≤ r4) (h4b : r4 < 1) (h6 : 0 ≤ r6) :
    capacityInvariant
      { total_beds := T,
        available_beds := T - ⌊(T : ℚ) * (2/5 + r3 * (2/5))⌋,
        icu_beds := I,
        icu_available := I - ⌊(I : ℚ) * (3/10 + r4 * (1/2))⌋,
        occupied_beds := ⌊(T : ℚ) * (2/5 + r3 * (2/5))⌋,
        incoming_ambulances := if r5 > 7/10 then ⌊r6 * 3⌋ + 1 else 0,
        occupancy_percentage :=
          round ((⌊(T : ℚ) * (2/5 + r3 * (2/5))⌋ : ℚ) / (T : ℚ) * 100) } := by
  obtain ⟨hf30, hf31⟩ :=
    frac_bound (2/5) (2/5) r3 h3 h3b (by norm_num) (by norm_num) (by norm_num)
  obtain ⟨hf40, hf41⟩ :=
    frac_bound (3/10) (1/2) r4 h4 h4b (by norm_num) (by norm_num) (by norm_num)
  obtain ⟨ho0, ho1⟩ := floor_frac_bounds T hT _ hf30 hf31
  obtain ⟨hi0, hi1⟩ := floor_frac_bounds I hI _ hf40 hf41
  have hinc : 0 ≤ (if r5 > 7/10 then ⌊r6 * 3⌋ + 1 else 0 : ℤ) := by
    split
    · have := Int.floor_nonneg.mpr (mul_nonneg h6 (by norm_num : (0 : ℚ) ≤ 3))
      omega
    · exact le_refl 0
  unfold capacityInvariant
  dsimp only
  omega

/-- The bounds invariant holds right after `initializeHospitalCapacity`, for
any facility name and any `Math.random()` draws in `[0, 1)`. -/
theorem initializeHospitalCapacity_invariant (name : String) (r1 r2 r3 r4 r5 r6 : ℚ)
    (h1 : 0 ≤ r1) (h2 : 0 ≤ r2) (h3 : 0 ≤ r3) (h3b : r3 < 1)
    (h4 : 0 ≤ r4) (h4b : r4 < 1) (h6 : 0 ≤ r6) :
    capacityInvariant (initializeHospitalCapacity name r1 r2 r3 r4 r5 r6) := by
  have hfT1 : (0 : ℤ) ≤ ⌊r1 * 100⌋ :=
    Int.floor_nonneg.mpr (mul_nonneg h1 (by norm_num))
  have hfT2 : (0 : ℤ) ≤ ⌊r1 * 150⌋ :=
    Int.floor_nonneg.mpr (mul_nonneg h1 (by norm_num))
  have hfT3 : (0 : ℤ) ≤ ⌊r1 * 80⌋ :=
    Int.floor_nonneg.mpr (mul_nonneg h1 (by norm_num))
  have hfI1 : (0 : ℤ) ≤ ⌊r2 * 20⌋ :=
    Int.floor_nonneg.mpr (mul_nonneg h2 (by norm_num))
  have hfI2 : (0 : ℤ) ≤ ⌊r2 * 25⌋ :=
    Int.floor_nonneg.mpr (mul_nonneg h2 (by norm_num))
  have hfI3 : (0 : ℤ) ≤ ⌊r2 * 15⌋ :=
    Int.floor_nonneg.mpr (mul_nonneg h2 (by norm_num))
  unfold initializeHospitalCapacity
  cases hgt : getHospitalType name <;> dsimp only <;>
    exact init_record_invariant _ _ (by omega) (by omega) r3 r4 r5 r6 h3 h3b h4 h4b h6

/-- A single simulation tick preserves the bounds invariant, whatever the
random draws are: every delta is clamped back into range. -/
theorem updateHospitalCapacity_preserves (c : HospitalCapacity) (r1 r2 r3 : ℚ)
    (h : capacityInvariant c) :
    capacityInvariant (updateHospitalCapacity c r1 r2 r3) := by
  obtain ⟨h1, h2, h3, h4, h5, h6⟩ := h
  unfold updateHospitalCapacity capacityInvariant
  dsimp only
  omega

theorem runTicks_preserves (rs : List (ℚ × ℚ × ℚ)) :
    ∀ c : HospitalCapacity, capacityInvariant c → capacityInvariant (runTicks c rs) := by
  induction rs with
  | nil => intro c h; exact h
  | cons r rs ih =>
    intro c h
    exact ih _ (updateHospitalCapacity_preserves c r.1 r.2.1 r.2.2 h)

/-- C8. For every facility, after initialization and after any number of
simulation ticks, available beds stay within `[0, total_beds]`, available ICU
beds within `[0, icu_beds]`, the incoming-ambulance count stays nonnegative,
and `occupied_beds` always equals `total_beds - available_beds`. -/
theorem capacitySimulator_bounds (name : String) (r1 r2 r3 r4 r5 r6 : ℚ)
    (h1 : 0 ≤ r1) (h2 : 0 ≤ r2) (h3 : 0 ≤ r3) (h3b : r3 < 1)
    (h4 : 0 ≤ r4) (h4b : r4 < 1) (h6 : 0 ≤ r6) (rs : List (ℚ × ℚ × ℚ)) :
    capacityInvariant (initializeHospitalCapacity name r1 r2 r3 r4 r5 r6) ∧
    capacityInvariant (runTicks (initializeHospitalCapacity name r1 r2 r3 r4 r5 r6) rs) :=
  have hinit := initializeHospitalCapacity_invariant name r1 r2 r3 r4 r5 r6
    h1 h2 h3 h3b h4 h4b h6
  ⟨hinit, runTicks_preserves rs _ hinit⟩

theorem capacitySimulator_bounds_witness :
    ((0 : ℚ) ≤ 1/2 ∧ (1/2 : ℚ) < 1) ∧
    (capacityInvariant
        (initializeHospitalCapacity "Civil Hospital" (1/2) (1/2) (1/2) (1/2) (1/2) (1/2)) ∧
      capacityInvariant
        (runTicks
          (initializeHospitalCapacity "Civil Hospital" (1/2) (1/2) (1/2) (1/2) (1/2) (1/2))
          [(1/2, 1/2, 1/2), (0, 1, 1/2)])) :=
  ⟨⟨by norm_num, by norm_num⟩,
    capacitySimulator_bounds "Civil Hospital" (1/2) (1/2) (1/2) (1/2) (1/2) (1/2)
      (by norm_num) (by norm_num) (by norm_num) (by norm_num) (by norm_num)
      (by norm_num) (by norm_num) [(1/2, 1/2, 1/2), (0, 1, 1/2)]⟩
